import Mathlib

/-!
Shallow embedding of `src/index.ts` of the icp-event-ticket canister
(an Azle/Internet Computer TypeScript program).

Modelling decisions, all traceable to the source:

* The two `StableBTreeMap`s are modelled as association lists
  (`KVStore`) with get / insert (replace-or-append) / remove,
  the standard functional model of an ordered key-value map.
* The TypeScript type `EventTicket` declares the fields
  `id, title, description, price, totalTicketSold, createdAt, updatedAt`.
  The functions `checkTicketAvailability` and `reserveTicket` additionally
  read and write the dynamic properties `capacity` and `reservedBy`, which no
  declared type carries and which `createEventTicket` never sets.  At JS
  runtime such an absent property reads as `undefined`; we model both as
  `Option` fields that are `none` on every entity the program itself creates.
  JS `x < undefined` is `false` (NaN comparison) and `undefined` is falsy;
  both facts are reflected where those properties are used.
* `uuidv4()` and `ic.time()` are ambient effects; they are passed in as
  explicit arguments (`freshId`, `now`).
* `Result<T, string>` becomes `Except String T`, keeping the exact message
  strings of the source.
* JS numbers that the program only stores, copies and increments are
  modelled as `Int` (`price`, `totalTicketSold`, `capacity`); the `nat64`
  timestamps as `Nat`.
-/

namespace ICPEventTicket

/-- Functional model of a `StableBTreeMap<string, α>`: an association list
with unique-key discipline maintained by `kvInsert`. -/
abbrev KVStore (α : Type) := List (String × α)

/-- Model of `map.get(k)`: first value stored at key `k`. -/
def kvGet {α : Type} (s : KVStore α) (k : String) : Option α :=
  match s with
  | [] => none
  | (k', v) :: rest => if k' = k then some v else kvGet rest k

/-- Model of `map.insert(k, v)`: replace the entry at `k` if present, else append. -/
def kvInsert {α : Type} (s : KVStore α) (k : String) (v : α) : KVStore α :=
  match s with
  | [] => [(k, v)]
  | (k', v') :: rest =>
      if k' = k then (k, v) :: rest else (k', v') :: kvInsert rest k v

/-- Model of `map.remove(k)`: drop every entry at key `k` (at most one under the
unique-key discipline). -/
def kvRemove {α : Type} (s : KVStore α) (k : String) : KVStore α :=
  match s with
  | [] => []
  | (k', v') :: rest =>
      if k' = k then kvRemove rest k else (k', v') :: kvRemove rest k

/-- Model of `map.values()`. -/
def kvValues {α : Type} (s : KVStore α) : List α :=
  s.map Prod.snd

/-- The `EventTicket` record.  `capacity` and `reservedBy` are the dynamic
properties discussed in the header: absent (`none`) unless written. -/
structure EventTicket where
  id : String
  title : String
  description : String
  price : Int
  totalTicketSold : Int
  createdAt : Nat
  updatedAt : Option Nat
  capacity : Option Int
  reservedBy : Option String
deriving Repr, DecidableEq

/-- The `TicketSold` record. -/
structure TicketSold where
  id : String
  eventTicketId : String
  username : String
deriving Repr, DecidableEq

/-- The `EventTicketPayload` record: note there is no `capacity` field. -/
structure EventTicketPayload where
  title : String
  description : String
  price : Int
deriving Repr, DecidableEq

/-- The two stable maps `eventTicketStorage` and `ticketSoldStorage`. -/
structure EngineState where
  eventTicketStorage : KVStore EventTicket
  ticketSoldStorage : KVStore TicketSold
deriving Repr, DecidableEq

/-- Source function `getAllEventTickets`. -/
def getAllEventTickets (s : EngineState) : Except String (List EventTicket) :=
  .ok (kvValues s.eventTicketStorage)

/-- Source function `createEventTicket(payload)`: builds the new entity (spread of the
payload over `id`/`createdAt`/`updatedAt`, then `totalTicketSold: 0`),
inserts it at its fresh id, returns `Ok`. -/
def createEventTicket (payload : EventTicketPayload) (freshId : String)
    (now : Nat) (s : EngineState) : Except String EventTicket × EngineState :=
  let newTicket : EventTicket :=
    { id := freshId
      title := payload.title
      description := payload.description
      price := payload.price
      totalTicketSold := 0
      createdAt := now
      updatedAt := none
      capacity := none
      reservedBy := none }
  (.ok newTicket,
    { s with eventTicketStorage := kvInsert s.eventTicketStorage freshId newTicket })

/-- Source function `getEventTicketById(id)`. -/
def getEventTicketById (id : String) (s : EngineState) : Except String EventTicket :=
  match kvGet s.eventTicketStorage id with
  | some ticket => .ok ticket
  | none => .error ("event ticket with id=" ++ id ++ " not found")

/-- Source function `deleteEventTicket(id)`: `remove` returns the removed entity or `None`. -/
def deleteEventTicket (id : String) (s : EngineState) :
    Except String EventTicket × EngineState :=
  match kvGet s.eventTicketStorage id with
  | some ticket =>
      (.ok ticket,
        { s with eventTicketStorage := kvRemove s.eventTicketStorage id })
  | none =>
      (.error ("couldn\x27t delete ticket with id=" ++ id ++ ". Profile not found."), s)

/-- Source function `getTicketSoldById(id)`. -/
def getTicketSoldById (id : String) (s : EngineState) : Except String TicketSold :=
  match kvGet s.ticketSoldStorage id with
  | some ticket => .ok ticket
  | none => .error ("ticket sold with id=" ++ id ++ " not found")

/-- Source function `buyTicket(id, username)`: looks the event up (wrapping the error in its
own message), then unconditionally inserts a fresh `TicketSold` and rewrites
the event with `totalTicketSold + 1` and `updatedAt = now`.  There is no
capacity check anywhere in this function. -/
def buyTicket (id : String) (username : String) (freshId : String) (now : Nat)
    (s : EngineState) : Except String TicketSold × EngineState :=
  match getEventTicketById id s with
  | .error _ => (.error ("Event ticket with id=" ++ id ++ " not found."), s)
  | .ok ticket =>
      let newTicket : TicketSold :=
        { id := freshId, eventTicketId := ticket.id, username := username }
      let s1 : EngineState :=
        { s with ticketSoldStorage := kvInsert s.ticketSoldStorage freshId newTicket }
      let updateEventTicket : EventTicket :=
        { ticket with totalTicketSold := ticket.totalTicketSold + 1
                      updatedAt := some now }
      (.ok newTicket,
        { s1 with eventTicketStorage :=
            kvInsert s1.eventTicketStorage updateEventTicket.id updateEventTicket })

/-- Source function `resellTicket(id, username)`: rewrites the sold record with the new
`username`, returning the updated record. -/
def resellTicket (id : String) (username : String) (s : EngineState) :
    Except String TicketSold × EngineState :=
  match getTicketSoldById id s with
  | .error _ => (.error ("ticket sold with id=" ++ id ++ " not found."), s)
  | .ok ticket =>
      let newTicket : TicketSold := { ticket with username := username }
      (.ok newTicket,
        { s with ticketSoldStorage := kvInsert s.ticketSoldStorage newTicket.id newTicket })

/-- The boolean `ticket.totalTicketSold < ticket.capacity` of
`checkTicketAvailability`: when `capacity` is the absent dynamic property
(`undefined`), the JS comparison is `false`. -/
def availableTickets (ticket : EventTicket) : Bool :=
  match ticket.capacity with
  | none => false
  | some c => decide (ticket.totalTicketSold < c)

/-- Source function `checkTicketAvailability(id)`. -/
def checkTicketAvailability (id : String) (s : EngineState) : Except String Bool :=
  match getEventTicketById id s with
  | .error _ => .error ("Event ticket with id=" ++ id ++ " not found.")
  | .ok ticket => .ok (availableTickets ticket)

/-- The guard `ticket.reservedBy && ticket.reservedBy !== username` of
`reserveTicket`: an absent (`undefined`) or empty-string `reservedBy` is
falsy, so only a non-empty stored principal different from the caller
conflicts. -/
def reservationConflict (reservedBy : Option String) (username : String) : Bool :=
  match reservedBy with
  | none => false
  | some r => decide (r ≠ "") && decide (r ≠ username)

/-- Source function `reserveTicket(id, username)`. -/
def reserveTicket (id : String) (username : String) (s : EngineState) :
    Except String String × EngineState :=
  match getEventTicketById id s with
  | .error _ => (.error ("Event ticket with id=" ++ id ++ " not found."), s)
  | .ok ticket =>
      if reservationConflict ticket.reservedBy username then
        (.error "Ticket is already reserved by another user.", s)
      else
        let updatedTicket : EventTicket := { ticket with reservedBy := some username }
        (.ok updatedTicket.id,
          { s with eventTicketStorage :=
              kvInsert s.eventTicketStorage updatedTicket.id updatedTicket })

/-- Source function `transferTicket(id, newOwner)`: same ledger rewrite as `resellTicket`,
but returns the record id and uses a capitalised error message. -/
def transferTicket (id : String) (newOwner : String) (s : EngineState) :
    Except String String × EngineState :=
  match getTicketSoldById id s with
  | .error _ => (.error ("Ticket sold with id=" ++ id ++ " not found."), s)
  | .ok ticket =>
      let updatedTicket : TicketSold := { ticket with username := newOwner }
      (.ok updatedTicket.id,
        { s with ticketSoldStorage := kvInsert s.ticketSoldStorage updatedTicket.id updatedTicket })

/-- Source function `requestTicketRefund(id)`: removes the ledger record, touches nothing
else (in particular no counter decrement on the event). -/
def requestTicketRefund (id : String) (s : EngineState) :
    Except String String × EngineState :=
  match getTicketSoldById id s with
  | .error _ => (.error ("Ticket sold with id=" ++ id ++ " not found."), s)
  | .ok _ => (.ok id, { s with ticketSoldStorage := kvRemove s.ticketSoldStorage id })

/-- Number of `TicketSold` records in the ledger referencing event `eid`. -/
def soldCount (ledger : KVStore TicketSold) (eid : String) : Nat :=
  ((kvValues ledger).filter (fun r => decide (r.eventTicketId = eid))).length

/-- Invariant I1 of the spec: every stored event's `totalTicketSold` equals
the number of ledger records referencing it. -/
def InventoryLedgerInv (s : EngineState) : Prop :=
  ∀ k t, kvGet s.eventTicketStorage k = some t →
    t.totalTicketSold = (soldCount s.ticketSoldStorage t.id : Int)

/-- Well-formedness of the two stores: each stored entity's `id` field is
its key.  Every entity the program inserts is keyed by its own id. -/
def KeysMatch (s : EngineState) : Prop :=
  (∀ k t, kvGet s.eventTicketStorage k = some t → t.id = k) ∧
  (∀ k r, kvGet s.ticketSoldStorage k = some r → r.id = k)

/-! ### Key-value store lemmas -/

theorem kvGet_insert_self {α : Type} (s : KVStore α) (k : String) (v : α) :
    kvGet (kvInsert s k v) k = some v := by
  induction s with
  | nil => simp [kvInsert, kvGet]
  | cons p rest ih =>
      obtain ⟨k', v'⟩ := p
      by_cases h : k' = k <;> simp [kvInsert, kvGet, h, ih]

theorem kvGet_insert_ne {α : Type} (s : KVStore α) (k k' : String) (v : α)
    (h : k' ≠ k) : kvGet (kvInsert s k v) k' = kvGet s k' := by
  induction s with
  | nil => simp [kvInsert, kvGet, Ne.symm h]
  | cons p rest ih =>
      obtain ⟨k₀, v₀⟩ := p
      by_cases h₀ : k₀ = k
      · subst h₀
        simp [kvInsert, kvGet, Ne.symm h]
      · by_cases h₁ : k₀ = k'
        · subst h₁
          simp [kvInsert, kvGet, h₀]
        · simp [kvInsert, kvGet, h₀, h₁, ih]

theorem kvGet_remove_self {α : Type} (s : KVStore α) (k : String) :
    kvGet (kvRemove s k) k = none := by
  induction s with
  | nil => simp [kvRemove, kvGet]
  | cons p rest ih =>
      obtain ⟨k', v'⟩ := p
      by_cases h : k' = k <;> simp [kvRemove, kvGet, h, ih]

theorem kvGet_remove_ne {α : Type} (s : KVStore α) (k k' : String)
    (h : k' ≠ k) : kvGet (kvRemove s k) k' = kvGet s k' := by
  induction s with
  | nil => simp [kvRemove, kvGet]
  | cons p rest ih =>
      obtain ⟨k₀, v₀⟩ := p
      by_cases h₀ : k₀ = k
      · subst h₀
        simp [kvRemove, kvGet, Ne.symm h, ih]
      · by_cases h₁ : k₀ = k'
        · subst h₁
          simp [kvRemove, kvGet, h₀]
        · simp [kvRemove, kvGet, h₀, h₁, ih]

theorem kvInsert_of_get_none {α : Type} (s : KVStore α) (k : String) (v : α)
    (h : kvGet s k = none) : kvInsert s k v = s ++ [(k, v)] := by
  induction s with
  | nil => simp [kvInsert]
  | cons p rest ih =>
      obtain ⟨k', v'⟩ := p
      by_cases h₀ : k' = k
      · simp [kvGet, h₀] at h
      · simp [kvGet, h₀] at h
        simp [kvInsert, h₀, ih h]

/-! ### soldCount lemmas -/

theorem soldCount_cons (p : String × TicketSold) (rest : KVStore TicketSold)
    (eid : String) :
    soldCount (p :: rest) eid
      = (if p.2.eventTicketId = eid then 1 else 0) + soldCount rest eid := by
  by_cases h : p.2.eventTicketId = eid <;>
    simp [soldCount, kvValues, List.filter, h, Nat.add_comm]

theorem soldCount_insert_fresh (l : KVStore TicketSold) (k : String)
    (r : TicketSold) (eid : String) (h : kvGet l k = none) :
    soldCount (kvInsert l k r) eid
      = soldCount l eid + (if r.eventTicketId = eid then 1 else 0) := by
  rw [kvInsert_of_get_none l k r h]
  by_cases hr : r.eventTicketId = eid <;>
    simp [soldCount, kvValues, List.filter_append, List.filter, hr]

theorem soldCount_insert_same_event (l : KVStore TicketSold) (k : String)
    (r w : TicketSold) (eid : String) (hget : kvGet l k = some w)
    (hsame : w.eventTicketId = r.eventTicketId) :
    soldCount (kvInsert l k r) eid = soldCount l eid := by
  induction l with
  | nil => simp [kvGet] at hget
  | cons p rest ih =>
      obtain ⟨k₀, r₀⟩ := p
      by_cases h₀ : k₀ = k
      · simp [kvGet, h₀] at hget
        subst hget
        simp [kvInsert, h₀, soldCount_cons, hsame]
      · simp [kvGet, h₀] at hget
        simp [kvInsert, h₀, soldCount_cons, ih hget]

/-! ### Concrete fixtures -/

/-- An event sitting exactly at capacity: one sold, capacity one. -/
def soldOutEvent : EventTicket :=
  { id := "e"
    title := "Concert"
    description := "gig"
    price := 10
    totalTicketSold := 1
    createdAt := 0
    updatedAt := none
    capacity := some 1
    reservedBy := none }

/-- State holding `soldOutEvent` and the one ledger record backing its
counter. -/
def soldOutState : EngineState :=
  { eventTicketStorage := [("e", soldOutEvent)]
    ticketSoldStorage := [("r0", { id := "r0", eventTicketId := "e", username := "alice" })] }

/-! ### Claim theorems -/

/-- C1 (code_bug evaluation): `buyTicket` against the at-capacity event
(`totalTicketSold = 1 = capacity`) does NOT fail with a SoldOut error: it
succeeds, inserts a new `TicketSold` into the ledger, and pushes
`totalTicketSold` past capacity to 2.  The source has no capacity check in
`buyTicket` at all. -/
theorem buyTicket_at_capacity_sells_anyway :
    soldOutEvent.totalTicketSold = (1 : Int) ∧
    soldOutEvent.capacity = some 1 ∧
    (buyTicket "e" "bob" "r1" 7 soldOutState).fst
      = .ok { id := "r1", eventTicketId := "e", username := "bob" } ∧
    kvGet (buyTicket "e" "bob" "r1" 7 soldOutState).snd.ticketSoldStorage "r1"
      = some { id := "r1", eventTicketId := "e", username := "bob" } ∧
    kvGet (buyTicket "e" "bob" "r1" 7 soldOutState).snd.eventTicketStorage "e"
      = some { soldOutEvent with totalTicketSold := 2, updatedAt := some 7 } :=
  ⟨rfl, rfl, rfl, rfl, rfl⟩

/-- C2: `checkTicketAvailability` fails with the NotFound error when no
event with that id is stored; on a stored event carrying a `capacity c` it
returns exactly the boolean `totalTicketSold < c`; on a stored event whose
`capacity` is absent (every event this program creates) it returns
`false`. -/
theorem checkTicketAvailability_spec (s : EngineState) (id : String) :
    (kvGet s.eventTicketStorage id = none →
      checkTicketAvailability id s
        = .error ("Event ticket with id=" ++ id ++ " not found.")) ∧
    (∀ t c, kvGet s.eventTicketStorage id = some t → t.capacity = some c →
      checkTicketAvailability id s = .ok (decide (t.totalTicketSold < c))) ∧
    (∀ t, kvGet s.eventTicketStorage id = some t → t.capacity = none →
      checkTicketAvailability id s = .ok false) := by
  refine ⟨?_, ?_, ?_⟩
  · intro h
    simp [checkTicketAvailability, getEventTicketById, h]
  · intro t c hget hcap
    simp [checkTicketAvailability, getEventTicketById, hget, availableTickets, hcap]
  · intro t hget hcap
    simp [checkTicketAvailability, getEventTicketById, hget, availableTickets, hcap]

/-- C2 witness: on `soldOutState` the at-capacity event reports `false`,
and an unknown id reports the NotFound error. -/
theorem checkTicketAvailability_spec_witness :
    checkTicketAvailability "e" soldOutState = .ok false ∧
    checkTicketAvailability "missing" soldOutState
      = .error "Event ticket with id=missing not found." := by
  constructor
  · have h := (checkTicketAvailability_spec soldOutState "e").2.1 soldOutEvent 1 rfl rfl
    simpa using h
  · have h := (checkTicketAvailability_spec soldOutState "missing").1 rfl
    simpa using h

/-- C4: `requestTicketRefund` fails with the NotFound error and leaves the
state unchanged when the record is absent; otherwise it returns `ok id`,
removes the record (a subsequent `getTicketSoldById` fails NotFound) and
leaves the inventory store — in particular every `totalTicketSold` —
untouched. -/
theorem requestTicketRefund_spec (s : EngineState) (id : String) :
    (kvGet s.ticketSoldStorage id = none →
      requestTicketRefund id s
        = (.error ("Ticket sold with id=" ++ id ++ " not found."), s)) ∧
    (∀ r, kvGet s.ticketSoldStorage id = some r →
      (requestTicketRefund id s).fst = .ok id ∧
      getTicketSoldById id (requestTicketRefund id s).snd
        = .error ("ticket sold with id=" ++ id ++ " not found") ∧
      (requestTicketRefund id s).snd.eventTicketStorage = s.eventTicketStorage) := by
  constructor
  · intro h
    simp [requestTicketRefund, getTicketSoldById, h]
  · intro r hget
    refine ⟨?_, ?_, ?_⟩ <;>
      simp [requestTicketRefund, getTicketSoldById, hget, kvGet_remove_self]

/-- C4 witness: refunding the concrete record `r0` of `soldOutState`. -/
theorem requestTicketRefund_spec_witness :
    (requestTicketRefund "r0" soldOutState).fst = .ok "r0" ∧
    getTicketSoldById "r0" (requestTicketRefund "r0" soldOutState).snd
      = .error "ticket sold with id=r0 not found" ∧
    (requestTicketRefund "r0" soldOutState).snd.eventTicketStorage
      = soldOutState.eventTicketStorage := by
  have h := (requestTicketRefund_spec soldOutState "r0").2
    { id := "r0", eventTicketId := "e", username := "alice" } rfl
  simpa using h

/-- C6: on an absent sold id, `resellTicket` and `transferTicket` each fail
with their NotFound error and leave the state unchanged; on a stored record
`r` both rewrite exactly the `username` field, preserving `id` and
`eventTicketId`. -/
theorem resell_transfer_update_username (s : EngineState) (id u : String) :
    (kvGet s.ticketSoldStorage id = none →
      resellTicket id u s
        = (.error ("ticket sold with id=" ++ id ++ " not found."), s) ∧
      transferTicket id u s
        = (.error ("Ticket sold with id=" ++ id ++ " not found."), s)) ∧
    (∀ r, kvGet s.ticketSoldStorage id = some r →
      (resellTicket id u s).fst
        = .ok { id := r.id, eventTicketId := r.eventTicketId, username := u } ∧
      kvGet (resellTicket id u s).snd.ticketSoldStorage r.id
        = some { id := r.id, eventTicketId := r.eventTicketId, username := u } ∧
      (transferTicket id u s).fst = .ok r.id ∧
      kvGet (transferTicket id u s).snd.ticketSoldStorage r.id
        = some { id := r.id, eventTicketId := r.eventTicketId, username := u }) := by
  constructor
  · intro h
    constructor <;> simp [resellTicket, transferTicket, getTicketSoldById, h]
  · intro r hget
    refine ⟨?_, ?_, ?_, ?_⟩ <;>
      simp [resellTicket, transferTicket, getTicketSoldById, hget, kvGet_insert_self]

/-- C6 witness: reselling and transferring the concrete record `r0` of
`soldOutState` to `bob`. -/
theorem resell_transfer_update_username_witness :
    (resellTicket "r0" "bob" soldOutState).fst
      = .ok { id := "r0", eventTicketId := "e", username := "bob" } ∧
    kvGet (resellTicket "r0" "bob" soldOutState).snd.ticketSoldStorage "r0"
      = some { id := "r0", eventTicketId := "e", username := "bob" } ∧
    (transferTicket "r0" "bob" soldOutState).fst = .ok "r0" ∧
    kvGet (transferTicket "r0" "bob" soldOutState).snd.ticketSoldStorage "r0"
      = some { id := "r0", eventTicketId := "e", username := "bob" } := by
  have h := (resell_transfer_update_username soldOutState "r0" "bob").2
    { id := "r0", eventTicketId := "e", username := "alice" } rfl
  simpa using h

/-- C9: `createEventTicket` followed immediately by `getEventTicketById`
on the id of the returned entity returns that same entity. -/
theorem create_then_get_roundtrip (payload : EventTicketPayload)
    (freshId : String) (now : Nat) (s : EngineState) (t : EventTicket)
    (h : (createEventTicket payload freshId now s).fst = .ok t) :
    getEventTicketById t.id (createEventTicket payload freshId now s).snd = .ok t := by
  have ht : t =
      { id := freshId
        title := payload.title
        description := payload.description
        price := payload.price
        totalTicketSold := 0
        createdAt := now
        updatedAt := none
        capacity := none
        reservedBy := none } := by
    simpa [createEventTicket] using h.symm
  subst ht
  simp [createEventTicket, getEventTicketById, kvGet_insert_self]

/-- C9 witness: round trip on a concrete payload over the empty state. -/
theorem create_then_get_roundtrip_witness :
    getEventTicketById "n1"
        (createEventTicket { title := "T", description := "D", price := 3 } "n1" 9
          { eventTicketStorage := [], ticketSoldStorage := [] }).snd
      = .ok { id := "n1", title := "T", description := "D", price := 3,
              totalTicketSold := 0, createdAt := 9, updatedAt := none,
              capacity := none, reservedBy := none } :=
  create_then_get_roundtrip { title := "T", description := "D", price := 3 } "n1" 9
    { eventTicketStorage := [], ticketSoldStorage := [] }
    { id := "n1", title := "T", description := "D", price := 3,
      totalTicketSold := 0, createdAt := 9, updatedAt := none,
      capacity := none, reservedBy := none } rfl

/-- Success test on a result value, `Result.isOk` of the source. -/
def resultIsOk {ε α : Type} : Except ε α → Bool
  | .ok _ => true
  | .error _ => false

/-- C7 counterexample: called on the same (empty) state with the same
input, `resellTicket` and `transferTicket` return DIFFERENT results — their
NotFound messages differ in capitalisation — so the two operations are not
behaviorally identical in their results. -/
theorem transfer_resell_results_differ :
    (resellTicket "x" "u" { eventTicketStorage := [], ticketSoldStorage := [] }).fst
      = .error "ticket sold with id=x not found." ∧
    (transferTicket "x" "u" { eventTicketStorage := [], ticketSoldStorage := [] }).fst
      = .error "Ticket sold with id=x not found." ∧
    ("ticket sold with id=x not found." : String)
      ≠ "Ticket sold with id=x not found." :=
  ⟨rfl, rfl, by decide⟩

/-- C7 amended: `transferTicket` performs exactly the same state transition
as `resellTicket` and succeeds on exactly the same inputs, but its results
differ: on success it returns the id of the record `resellTicket` returns
(not the record), and on a missing id its NotFound message is capitalised
where resellTicket\x27s is not. -/
theorem transferTicket_refines_resellTicket (s : EngineState) (id u : String) :
    (transferTicket id u s).snd = (resellTicket id u s).snd ∧
    (resultIsOk (transferTicket id u s).fst = resultIsOk (resellTicket id u s).fst) ∧
    (∀ r, (resellTicket id u s).fst = .ok r →
      (transferTicket id u s).fst = .ok r.id) ∧
    (kvGet s.ticketSoldStorage id = none →
      (resellTicket id u s).fst
          = .error ("ticket sold with id=" ++ id ++ " not found.") ∧
      (transferTicket id u s).fst
          = .error ("Ticket sold with id=" ++ id ++ " not found.")) := by
  rcases hget : kvGet s.ticketSoldStorage id with _ | r
  · refine ⟨?_, ?_, ?_, ?_⟩ <;>
      simp [resellTicket, transferTicket, getTicketSoldById, hget, resultIsOk]
  · refine ⟨?_, ?_, ?_, ?_⟩ <;>
      simp [resellTicket, transferTicket, getTicketSoldById, hget, resultIsOk]

/-- C7 witness: on `soldOutState`, transferring record `r0` produces the
same state as reselling it and returns the record id `r0`. -/
theorem transferTicket_refines_resellTicket_witness :
    (transferTicket "r0" "bob" soldOutState).snd
      = (resellTicket "r0" "bob" soldOutState).snd ∧
    (transferTicket "r0" "bob" soldOutState).fst = .ok "r0" := by
  refine ⟨(transferTicket_refines_resellTicket soldOutState "r0" "bob").1, ?_⟩
  have h := (transferTicket_refines_resellTicket soldOutState "r0" "bob").2.2.1
    { id := "r0", eventTicketId := "e", username := "bob" } rfl
  simpa using h

/-- C8 (code_bug evaluation): `createEventTicket` always succeeds and the
created entity has `totalTicketSold = 0`, `createdAt = now`, `updatedAt`
absent and `reservedBy` absent — but the operation takes NO capacity input
(the payload type has only title, description, price) and the created
entity carries NO capacity, so the availability check on it can never see a
capacity. -/
theorem createEventTicket_no_capacity_input :
    createEventTicket { title := "T", description := "D", price := 3 } "n1" 9
        { eventTicketStorage := [], ticketSoldStorage := [] }
      = (.ok { id := "n1", title := "T", description := "D", price := 3,
               totalTicketSold := 0, createdAt := 9, updatedAt := none,
               capacity := none, reservedBy := none },
         { eventTicketStorage :=
             [("n1", { id := "n1", title := "T", description := "D", price := 3,
                       totalTicketSold := 0, createdAt := 9, updatedAt := none,
                       capacity := none, reservedBy := none })]
           ticketSoldStorage := [] }) ∧
    checkTicketAvailability "n1"
        (createEventTicket { title := "T", description := "D", price := 3 } "n1" 9
          { eventTicketStorage := [], ticketSoldStorage := [] }).snd
      = .ok false :=
  ⟨rfl, rfl⟩

/-- An event nobody has reserved yet. -/
def unreservedEvent : EventTicket :=
  { id := "e"
    title := "Concert"
    description := "gig"
    price := 10
    totalTicketSold := 0
    createdAt := 0
    updatedAt := none
    capacity := none
    reservedBy := none }

/-- State holding only `unreservedEvent`. -/
def unreservedState : EngineState :=
  { eventTicketStorage := [("e", unreservedEvent)]
    ticketSoldStorage := [] }

/-- C5 counterexample: take p1 = "" and p2 = "bob" (distinct principals).
After a successful `reserveTicket("e", "")`, the call
`reserveTicket("e", "bob")` does NOT fail with a ReservationConflict — it
succeeds, because the stored empty string is falsy in the guard
`ticket.reservedBy && ticket.reservedBy !== username`. -/
theorem reserve_empty_then_other_succeeds :
    ("" : String) ≠ "bob" ∧
    (reserveTicket "e" "" unreservedState).fst = .ok "e" ∧
    (reserveTicket "e" "bob" (reserveTicket "e" "" unreservedState).snd).fst
      = .ok "e" :=
  ⟨by decide, rfl, rfl⟩

/-- C5 amended (restricted to a NON-EMPTY first principal): for p1 ≠ "",
p1 ≠ p2, after a successful `reserveTicket(id, p1)` a reservation attempt
by p2 fails with the ReservationConflict error leaving the state unchanged,
while a repeated reservation by p1 succeeds again, keeping
`reservedBy = p1`. -/
theorem reserveTicket_exclusive (s : EngineState) (id p1 p2 : String)
    (hne : p1 ≠ "") (hdiff : p1 ≠ p2) (t : EventTicket)
    (hget : kvGet s.eventTicketStorage id = some t) (hid : t.id = id)
    (hok : (reserveTicket id p1 s).fst = .ok id) :
    reserveTicket id p2 (reserveTicket id p1 s).snd
      = (.error "Ticket is already reserved by another user.",
         (reserveTicket id p1 s).snd) ∧
    (reserveTicket id p1 (reserveTicket id p1 s).snd).fst = .ok id ∧
    kvGet (reserveTicket id p1 (reserveTicket id p1 s).snd).snd.eventTicketStorage id
      = some { t with reservedBy := some p1 } := by
  subst hid
  cases hc : reservationConflict t.reservedBy p1 with
  | true => simp [reserveTicket, getEventTicketById, hget, hc] at hok
  | false =>
      have h1 : reserveTicket t.id p1 s
          = (.ok t.id,
             { s with eventTicketStorage :=
                 kvInsert s.eventTicketStorage t.id { t with reservedBy := some p1 } }) := by
        simp [reserveTicket, getEventTicketById, hget, hc]
      have hc2 : reservationConflict (some p1) p2 = true := by
        simp [reservationConflict, hne, hdiff]
      have hc3 : reservationConflict (some p1) p1 = false := by
        simp [reservationConflict]
      refine ⟨?_, ?_, ?_⟩ <;>
        (rw [h1]; simp [reserveTicket, getEventTicketById, kvGet_insert_self, hc2, hc3])

/-- C5 witness: alice reserves the concrete unreserved event, bob is then
rejected with the conflict error, and alice can re-reserve. -/
theorem reserveTicket_exclusive_witness :
    reserveTicket "e" "bob" (reserveTicket "e" "alice" unreservedState).snd
      = (.error "Ticket is already reserved by another user.",
         (reserveTicket "e" "alice" unreservedState).snd) ∧
    (reserveTicket "e" "alice" (reserveTicket "e" "alice" unreservedState).snd).fst
      = .ok "e" := by
  have h := reserveTicket_exclusive unreservedState "e" "alice" "bob"
    (by decide) (by decide) unreservedEvent rfl rfl rfl
  exact ⟨h.1, h.2.1⟩

/-- C10: a reservation by the empty-string principal is not exclusive —
after a successful `reserveTicket(id, "")`, a reservation by ANY principal
p succeeds (never a ReservationConflict) and overwrites `reservedBy` with
p, because the guard only fires for a truthy (non-empty) stored string. -/
theorem reserve_after_empty_reservation_succeeds (s : EngineState)
    (id p : String) (t : EventTicket)
    (hget : kvGet s.eventTicketStorage id = some t) (hid : t.id = id)
    (hok : (reserveTicket id "" s).fst = .ok id) :
    (reserveTicket id p (reserveTicket id "" s).snd).fst = .ok id ∧
    kvGet (reserveTicket id p (reserveTicket id "" s).snd).snd.eventTicketStorage id
      = some { t with reservedBy := some p } := by
  subst hid
  cases hc : reservationConflict t.reservedBy "" with
  | true => simp [reserveTicket, getEventTicketById, hget, hc] at hok
  | false =>
      have h1 : reserveTicket t.id "" s
          = (.ok t.id,
             { s with eventTicketStorage :=
                 kvInsert s.eventTicketStorage t.id { t with reservedBy := some "" } }) := by
        simp [reserveTicket, getEventTicketById, hget, hc]
      have hc2 : reservationConflict (some "") p = false := by
        simp [reservationConflict]
      constructor <;>
        (rw [h1]; simp [reserveTicket, getEventTicketById, kvGet_insert_self, hc2])

/-- C10 witness: after the empty-string reservation on the concrete event,
carol\x27s reservation succeeds and takes over `reservedBy`. -/
theorem reserve_after_empty_reservation_succeeds_witness :
    (reserveTicket "e" "carol" (reserveTicket "e" "" unreservedState).snd).fst
      = .ok "e" ∧
    kvGet (reserveTicket "e" "carol" (reserveTicket "e" "" unreservedState).snd).snd.eventTicketStorage "e"
      = some { unreservedEvent with reservedBy := some "carol" } :=
  reserve_after_empty_reservation_succeeds unreservedState "e" "carol"
    unreservedEvent rfl rfl rfl

/-- Lookup in a one-entry store pins down both key and value. -/
theorem kvGet_singleton {α : Type} (a k : String) (v w : α)
    (h : kvGet [(a, v)] k = some w) : a = k ∧ v = w := by
  by_cases hk : a = k
  · simp [kvGet, hk] at h
    exact ⟨hk, h⟩
  · simp [kvGet, hk] at h

theorem keysMatch_soldOutState : KeysMatch soldOutState := by
  constructor
  · intro k t hget
    obtain ⟨hk, hv⟩ := kvGet_singleton "e" k soldOutEvent t hget
    rw [← hv, ← hk]
    rfl
  · intro k r hget
    simp only [soldOutState] at hget
    obtain ⟨hk, hv⟩ := kvGet_singleton "r0" k
      { id := "r0", eventTicketId := "e", username := "alice" } r hget
    rw [← hv, ← hk]

theorem inv_soldOutState : InventoryLedgerInv soldOutState := by
  intro k t hget
  obtain ⟨hk, hv⟩ := kvGet_singleton "e" k soldOutEvent t hget
  rw [← hv]
  decide

/-- C3 counterexample: `soldOutState` satisfies invariant I1
(`totalTicketSold = 1` and one matching ledger record), the refund of that
record completes successfully, and afterwards I1 is violated: the counter
still reads 1 while no ledger record references the event. -/
theorem refund_breaks_inventory_ledger_inv :
    InventoryLedgerInv soldOutState ∧
    (requestTicketRefund "r0" soldOutState).fst = .ok "r0" ∧
    ¬ InventoryLedgerInv (requestTicketRefund "r0" soldOutState).snd := by
  refine ⟨inv_soldOutState, rfl, ?_⟩
  intro h
  have h2 := h "e" soldOutEvent rfl
  exact absurd h2 (by decide)

/-- C3 amended: invariant I1 (`totalTicketSold` = count of matching ledger
records) is preserved by every operation EXCEPT `requestTicketRefund`,
which breaks it (see the counterexample): create (with an id no ledger
record references), delete, buy (with a ledger-fresh sold id), resell,
transfer and reserve all preserve it on well-formed states. -/
theorem inventory_ledger_inv_preserved (s : EngineState)
    (hK : KeysMatch s) (hI : InventoryLedgerInv s) :
    (∀ payload freshId now, soldCount s.ticketSoldStorage freshId = 0 →
      InventoryLedgerInv (createEventTicket payload freshId now s).snd) ∧
    (∀ id, InventoryLedgerInv (deleteEventTicket id s).snd) ∧
    (∀ id username freshId now, kvGet s.ticketSoldStorage freshId = none →
      InventoryLedgerInv (buyTicket id username freshId now s).snd) ∧
    (∀ id username, InventoryLedgerInv (resellTicket id username s).snd) ∧
    (∀ id newOwner, InventoryLedgerInv (transferTicket id newOwner s).snd) ∧
    (∀ id username, InventoryLedgerInv (reserveTicket id username s).snd) := by
  refine ⟨?_, ?_, ?_, ?_, ?_, ?_⟩
  · -- createEventTicket
    intro payload freshId now hfresh k t hget
    simp only [createEventTicket] at hget ⊢
    by_cases hk : k = freshId
    · subst hk
      rw [kvGet_insert_self] at hget
      cases hget
      simp [hfresh]
    · rw [kvGet_insert_ne _ _ _ _ hk] at hget
      exact hI k t hget
  · -- deleteEventTicket
    intro id k t hget
    rcases hd : kvGet s.eventTicketStorage id with _ | t0
    · simp only [deleteEventTicket, hd] at hget ⊢
      exact hI k t hget
    · simp only [deleteEventTicket, hd] at hget ⊢
      by_cases hk : k = id
      · subst hk
        rw [kvGet_remove_self] at hget
        cases hget
      · rw [kvGet_remove_ne _ _ _ hk] at hget
        exact hI k t hget
  · -- buyTicket
    intro id username freshId now hfresh k t hget
    rcases hb : kvGet s.eventTicketStorage id with _ | ticket
    · simp only [buyTicket, getEventTicketById, hb] at hget ⊢
      exact hI k t hget
    · simp only [buyTicket, getEventTicketById, hb] at hget ⊢
      by_cases hk : k = ticket.id
      · subst hk
        rw [kvGet_insert_self] at hget
        cases hget
        have hbase := hI id ticket hb
        rw [soldCount_insert_fresh _ _ _ _ hfresh]
        simp [hbase]
      · rw [kvGet_insert_ne _ _ _ _ hk] at hget
        have hbase := hI k t hget
        have htk : t.id = k := hK.1 k t hget
        have hne : ticket.id ≠ t.id := by
          rw [htk]
          exact fun hh => hk hh.symm
        rw [soldCount_insert_fresh _ _ _ _ hfresh]
        simp [hne, hbase]
  · -- resellTicket
    intro id username k t hget
    rcases hr : kvGet s.ticketSoldStorage id with _ | r
    · simp only [resellTicket, getTicketSoldById, hr] at hget ⊢
      exact hI k t hget
    · have hRid : r.id = id := hK.2 id r hr
      simp only [resellTicket, getTicketSoldById, hr] at hget ⊢
      rw [soldCount_insert_same_event s.ticketSoldStorage r.id
        { r with username := username } r t.id (by rw [hRid]; exact hr) rfl]
      exact hI k t hget
  · -- transferTicket
    intro id newOwner k t hget
    rcases hr : kvGet s.ticketSoldStorage id with _ | r
    · simp only [transferTicket, getTicketSoldById, hr] at hget ⊢
      exact hI k t hget
    · have hRid : r.id = id := hK.2 id r hr
      simp only [transferTicket, getTicketSoldById, hr] at hget ⊢
      rw [soldCount_insert_same_event s.ticketSoldStorage r.id
        { r with username := newOwner } r t.id (by rw [hRid]; exact hr) rfl]
      exact hI k t hget
  · -- reserveTicket
    intro id username k t hget
    rcases hr : kvGet s.eventTicketStorage id with _ | ticket
    · simp only [reserveTicket, getEventTicketById, hr] at hget ⊢
      exact hI k t hget
    · cases hc : reservationConflict ticket.reservedBy username with
      | true =>
          simp [reserveTicket, getEventTicketById, hr, hc] at hget ⊢
          exact hI k t hget
      | false =>
          simp [reserveTicket, getEventTicketById, hr, hc] at hget ⊢
          by_cases hk : k = ticket.id
          · subst hk
            rw [kvGet_insert_self] at hget
            cases hget
            simpa using hI id ticket hr
          · rw [kvGet_insert_ne _ _ _ _ hk] at hget
            exact hI k t hget

/-- C3 witness: buying one more ticket from the (well-formed, I1-satisfying)
`soldOutState` with a ledger-fresh sold id preserves invariant I1. -/
theorem inventory_ledger_inv_preserved_witness :
    InventoryLedgerInv (buyTicket "e" "bob" "r1" 7 soldOutState).snd :=
  (inventory_ledger_inv_preserved soldOutState keysMatch_soldOutState
    inv_soldOutState).2.2.1 "e" "bob" "r1" 7 rfl

end ICPEventTicket
